import Mathlib

/-!
Shallow embedding of the `huh` terminal form engine (fork
`thedeveloper-sharath/huh`), covering the parts of the code the claims
are about: the `MultiSelect` selection/filter/viewport state machine
(`field_multiselect.go`), the `Select` field (`field_select.go`) and the
`Group` navigation logic (`group.go`, shipped as `src/unnamed/part_000`).

Go `int` is modelled as `Int`; Go `error` results as `Option String`
(`none` = nil).  The `selected map[int]Option[T]` field is modelled as an
association list with pairwise-distinct keys; since Go map iteration
order is unspecified, every operation that iterates over the map
(`updateValue`) is parametrised by the key enumeration order the Go
runtime happens to produce.
-/

namespace Huh

/-- `Option[T]` of the source (option.go): a (display key, value,
pre-selected flag) triple.  Named `Opt` to avoid clashing with Lean's
`Option`. -/
structure Opt (T : Type) where
  key : String
  value : T
  selected : Bool
  deriving Repr, DecidableEq

/-- Scroll state of the external `charmbracelet/bubbles` viewport
(an external collaborator of this repo): `YOffset`, `Height` and the
number of content lines recorded by the last `SetContent` call
(`len(m.lines)` after splitting the content on newlines). -/
structure Viewport where
  yOffset : Int
  height : Int
  lineCount : Int
  deriving Repr, DecidableEq

/-- bubbles `viewport.maxYOffset()`: `max(0, len(m.lines) - m.Height)`. -/
def Viewport.maxYOffset (v : Viewport) : Int :=
  max 0 (v.lineCount - v.height)

/-- bubbles `viewport.SetYOffset(n)`: `m.YOffset = clamp(n, 0, m.maxYOffset())`. -/
def Viewport.setYOffset (v : Viewport) (n : Int) : Viewport :=
  { v with yOffset := max 0 (min (v.maxYOffset) n) }

/-- bubbles `viewport.GotoTop()`: `m.SetYOffset(0)`. -/
def Viewport.gotoTop (v : Viewport) : Viewport := v.setYOffset 0

/-- bubbles `viewport.GotoBottom()`: `m.SetYOffset(m.maxYOffset())`. -/
def Viewport.gotoBottom (v : Viewport) : Viewport := v.setYOffset v.maxYOffset

/-- bubbles `viewport.LineDown(n)`: scrolls down by `n` lines,
i.e. `SetYOffset(YOffset + n)`. -/
def Viewport.lineDown (v : Viewport) (n : Int) : Viewport :=
  v.setYOffset (v.yOffset + n)

/-- bubbles `viewport.HalfViewUp()`: scrolls up by `Height/2` lines. -/
def Viewport.halfViewUp (v : Viewport) : Viewport :=
  v.setYOffset (v.yOffset - v.height / 2)

/-- bubbles `viewport.HalfViewDown()`: scrolls down by `Height/2` lines. -/
def Viewport.halfViewDown (v : Viewport) : Viewport :=
  v.setYOffset (v.yOffset + v.height / 2)

/-- Modelled from the spec: the repo's `clamp(i, min, max int)` helper
(its util file is not under `src/`); the spec uses it as "cursor is
clamped into range after every recomputation". -/
def clamp (n low high : Int) : Int :=
  if n < low then low else if n > high then high else n

/-- `defaultLimit` of field_multiselect.go line 28. -/
def defaultLimit : Int := 2

/-- State of `MultiSelect[T]` (field_multiselect.go lines 31-64),
restricted to the components the modelled operations read or write:

* `value`    — the externally bound storage behind `accessor`
  (`EmbeddedAccessor` / `PointerAccessor`: `Get` after `Set v` returns `v`);
* `optionsVal` — `options.val`, the full option list of the `Eval`;
* `optionsBindingsHash`, `optionsLoading` — the `Eval` bookkeeping of the
  options that the deferred-update protocol reads;
* `filteredOptions`, `limit`, `cursor`, `focused`, `filtering`,
  `filterStr` (the filter text input's value), `selected`, `err`,
  `viewport`, `id` — as in the source.

The styling/theme/keymap/spinner fields only affect rendering and are
not part of the model.  `validate` is the stored validation callback. -/
structure MultiSelect (T : Type) where
  value : List T
  optionsVal : List (Opt T)
  optionsBindingsHash : Nat
  optionsLoading : Bool
  filteredOptions : List (Opt T)
  limit : Int
  cursor : Int
  focused : Bool
  filtering : Bool
  filterStr : String
  selected : List (Int × Opt T)
  err : Option String
  validate : List T → Option String
  viewport : Viewport
  id : Nat

/-- `NewMultiSelect[T]()` (field_multiselect.go lines 67-86): empty
selection, default validator `func([]T) error { return nil }`,
`limit: defaultLimit`.  The fresh `id` is a parameter. -/
def newMultiSelect (T : Type) (id : Nat) : MultiSelect T where
  value := []
  optionsVal := []
  optionsBindingsHash := 0
  optionsLoading := false
  filteredOptions := []
  limit := defaultLimit
  cursor := 0
  focused := false
  filtering := false
  filterStr := ""
  selected := []
  err := none
  validate := fun _ => none
  viewport := { yOffset := 0, height := 0, lineCount := 1 }
  id := id

/-- The error string of `ToggleSelect` (field_multiselect.go line 730). -/
def limitErr : String := "Limit reached. Unable to select another option."

/-- `MultiSelect.ToggleSelect(index, o)` (field_multiselect.go lines
722-734): if the index is in the `selected` map, delete it and return
nil; otherwise, if `len(m.selected) >= m.limit`, return the limit error
leaving the state unchanged; otherwise insert the option at the index.
Returns the new state and the `error` result. -/
def toggleSelect (m : MultiSelect T) (index : Int) (o : Opt T) :
    MultiSelect T × Option String :=
  if (m.selected.lookup index).isSome then
    ({ m with selected := m.selected.filter (fun p => p.1 ≠ index) }, none)
  else if (m.selected.length : Int) ≥ m.limit then
    (m, some limitErr)
  else
    ({ m with selected := m.selected ++ [(index, o)] }, none)

/-- `MultiSelect.updateValue()` (field_multiselect.go lines 443-450):
`value := make([]T, 0); for i := range m.selected { value = append(value,
m.selected[i].Value) }; m.accessor.Set(value); m.err =
m.validate(m.accessor.Get())`.  Go iterates the keys of the
`selected` map in an unspecified order; `e` is that enumeration (for a
real execution, a permutation of the keys of `m.selected`). -/
def updateValue (e : List Int) (m : MultiSelect T) : MultiSelect T :=
  let value := e.filterMap (fun i => (m.selected.lookup i).map (fun o => o.value))
  { m with value := value, err := m.validate value }

/-- The cursor-movement directions (field_multiselect.go lines 19-26:
`top, bottom, up, down, halfUp, halfDown` as `iota` constants).  Modelled
as an inductive; `moveCursor` ignores any other integer, matching the
Go `switch` with no default. -/
inductive Dir
  | top
  | bottom
  | up
  | down
  | halfUp
  | halfDown
  deriving Repr, DecidableEq

/-- `MultiSelect.moveCursor(i)` (field_multiselect.go lines 746-771):
repositions the cursor and the viewport offset.  `top`/`bottom` snap the
viewport to the extremes; `up`/`down` move by one and scroll only when
the cursor leaves the window; `halfUp`/`halfDown` move by
`viewport.Height/2` and scroll by the same amount. -/
def moveCursor (m : MultiSelect T) (d : Dir) : MultiSelect T :=
  match d with
  | .top =>
      { m with cursor := 0, viewport := m.viewport.gotoTop }
  | .up =>
      let cursor := max (m.cursor - 1) 0
      if cursor < m.viewport.yOffset then
        { m with cursor := cursor, viewport := m.viewport.setYOffset cursor }
      else
        { m with cursor := cursor }
  | .down =>
      let cursor := min (m.cursor + 1) ((m.filteredOptions.length : Int) - 1)
      if cursor ≥ m.viewport.yOffset + m.viewport.height then
        { m with cursor := cursor, viewport := m.viewport.lineDown 1 }
      else
        { m with cursor := cursor }
  | .bottom =>
      { m with cursor := (m.filteredOptions.length : Int) - 1,
               viewport := m.viewport.gotoBottom }
  | .halfUp =>
      { m with cursor := max (m.cursor - m.viewport.height / 2) 0,
               viewport := m.viewport.halfViewUp }
  | .halfDown =>
      { m with cursor := min (m.cursor + m.viewport.height / 2)
                             ((m.filteredOptions.length : Int) - 1),
               viewport := m.viewport.halfViewDown }

/-- Number of lines of the string built by `MultiSelect.optionsView()`
(field_multiselect.go lines 488-525, non-loading branch): one line per
filtered option, with a newline written after option `i` only while
`i < len(options.val)-1`, then padding newlines for
`i` from `len(filteredOptions)` to `len(options.val)-2`.  Since
`filteredOptions` is a subset of `options.val`, the string always has
`len(options.val)-1` newlines, i.e. `len(options.val)` lines (one line,
the empty string, when there are no options).  `View()` passes this
string to `viewport.SetContent`, so this is the viewport's recorded
`lineCount` after any render. -/
def optionsViewLineCount (m : MultiSelect T) : Int :=
  if m.optionsVal.length = 0 then 1 else (m.optionsVal.length : Int)

/-- The `SetContent` step of `MultiSelect.View()` (field_multiselect.go
line 549): records the rendered option lines in the viewport. -/
def setContent (m : MultiSelect T) : MultiSelect T :=
  { m with viewport := { m.viewport with lineCount := optionsViewLineCount m } }

/-- `updateOptionsMsg[T]` (the deferred options result message): carries
the id of the requesting field, the recomputed options and the bindings
hash the computation was dispatched for. -/
structure UpdateOptionsMsg (T : Type) where
  id : Nat
  options : List (Opt T)
  hash : Nat

/-- The `case updateOptionsMsg[T]` branch of `MultiSelect.Update`
(field_multiselect.go lines 317-324): the result is applied only when
`msg.id == m.id && msg.hash == m.options.bindingsHash`; it then stores
the options (`Eval.update`, which also clears the loading flag — that
method lives in the repo's eval file, not under `src/`; modelled from
the spec's deferred-evaluation description), resets `filteredOptions`
to the full set, recommits the value and clamps the cursor.  `e` is the
map enumeration order used by the inner `updateValue` call. -/
def handleUpdateOptionsMsg (e : List Int) (msg : UpdateOptionsMsg T)
    (m : MultiSelect T) : MultiSelect T :=
  if msg.id = m.id ∧ msg.hash = m.optionsBindingsHash then
    let m1 := { m with optionsVal := msg.options, optionsLoading := false }
    let m2 := { m1 with filteredOptions := m1.optionsVal }
    let m3 := updateValue e m2
    { m3 with cursor := clamp m3.cursor 0 ((m3.filteredOptions.length : Int) - 1) }
  else m

/-- Helper for the toggle-all branch: the Go inner loop
`for j := range m.filteredOptions { if key == filteredOptions[j].Key {
filteredOptions[j].selected = b; break } }` — sets the `selected` flag
of the first entry whose key matches, leaving the rest untouched. -/
def setFirstMatch (k : String) (b : Bool) : List (Opt T) → List (Opt T)
  | [] => []
  | f :: rest =>
      if f.key == k then { f with selected := b } :: rest
      else f :: setFirstMatch k b rest

/-- The `case key.Matches(msg, m.keymap.ToggleAll) && m.limit == 0`
branch of `MultiSelect.Update` (field_multiselect.go lines 369-388),
followed by its trailing `m.updateValue()`:

* `b` is the Go local `selected`: true iff some filtered option has a
  false `selected` flag;
* the outer loop sets `options.val[i].selected = b` for every option
  whose key occurs in `filteredOptions`, and for each such option sets
  the flag of the first matching `filteredOptions` entry;
* the `m.selected` map is never touched.

Callers must only use it when `m.limit = 0` (the key binding guard). -/
def toggleAllAction (e : List Int) (m : MultiSelect T) : MultiSelect T :=
  let b := m.filteredOptions.any (fun o => !o.selected)
  let m1 :=
    { m with
      optionsVal := m.optionsVal.map (fun o =>
        if m.filteredOptions.any (fun f => f.key == o.key) then
          { o with selected := b }
        else o),
      filteredOptions := m.optionsVal.foldl
        (fun acc o => setFirstMatch o.key b acc) m.filteredOptions }
  updateValue e m1

/-- `MultiSelect.runAccessible` epilogue (field_multiselect.go lines
644-655), executed after the prompt loop breaks: `value :=
m.accessor.Get()`, then for each option index `i` of `options.val` in
increasing order, if `i` is in the `selected` map the option's value is
appended to `value` (and `m.selected[i]` is overwritten with
`options.val[i]`); finally `m.accessor.Set(value)`. -/
def accessibleEpilogue (m : MultiSelect T) : MultiSelect T :=
  let extra := (m.optionsVal.enum.filter
      (fun p => (m.selected.lookup (p.1 : Int)).isSome)).map
      (fun p => p.2.value)
  let selected := m.selected.map (fun q =>
    match m.optionsVal.enum.lookup q.1.toNat with
    | some o => if 0 ≤ q.1 then (q.1, o) else q
    | none => q)
  { m with value := m.value ++ extra, selected := selected }

/-- The prompt loop of `MultiSelect.runAccessible` (field_multiselect.go
lines 608-659).  `accessibility.PromptInt` (an external line-based input
helper) yields one integer in `[0, len(options.val)]` per iteration;
`choices` is the sequence of integers the user enters.  Choice `0` runs
`updateValue` and, when validation passes, breaks into the epilogue;
any other choice toggles option `choice-1` and loops (whether or not the
toggle hit the selection limit).  Returns `none` when the input sequence
is exhausted before the loop breaks (the Go loop would keep prompting)
or on an out-of-range index (which `PromptInt` prevents).  `enum` gives
the map enumeration order used whenever `updateValue` runs. -/
def runAccessibleLoop (enum : List (Int × Opt T) → List Int)
    (m : MultiSelect T) : List Nat → Option (MultiSelect T)
  | [] => none
  | c :: rest =>
    if c = 0 then
      let m1 := updateValue (enum m.selected) m
      match m1.validate m1.value with
      | some _ => runAccessibleLoop enum m1 rest
      | none => some (accessibleEpilogue m1)
    else
      match m.optionsVal.get? (c - 1) with
      | none => none
      | some o => runAccessibleLoop enum (toggleSelect m ((c : Int) - 1) o).1 rest

/-- `Select[T]` state (field_select.go lines 14-30): bound value,
options, highlighted index (`selected`), validation callback, error and
focus flag.  `viewHeight` is the line height of the field's rendered
`View()` — rendering is delegated to the external styling layer, so the
height is carried as abstract data (the group only ever reads it through
`lipgloss.Height(field.View())`). -/
structure SelectF (T : Type) where
  value : T
  options : List (Opt T)
  selectedIdx : Int
  validate : T → Option String
  err : Option String
  focused : Bool
  viewHeight : Int

/-- The key classes a `Select` distinguishes (field_select.go lines
121-136: `keymap.Up/Down/Prev/Next`). -/
inductive SelKey
  | up
  | down
  | next
  | prev
  deriving Repr, DecidableEq

/-- The messages flowing through a group (tea.Msg): a key press routed
to the focused field, or the `nextFieldMsg`/`prevFieldMsg` navigation
messages produced by the `nextField`/`prevField` commands
(group.go lines 157-177). -/
inductive GMsg
  | key (k : SelKey)
  | nextFieldMsg
  | prevFieldMsg
  deriving Repr, DecidableEq

/-- The navigation commands a field or group can emit (`tea.Cmd`s
`nextField`, `prevField`, `nextGroup`, `prevGroup`); an `Update` result
carries the list of emitted commands. -/
inductive Signal
  | nextField
  | prevField
  | nextGroup
  | prevGroup
  deriving Repr, DecidableEq

/-- `Select.Update(msg)` (field_select.go lines 117-139).  On a key
press the stored error is cleared first; `Up`/`Down` move the
highlighted index clamped into `[0, len(options)-1]`; `Prev` emits the
retreat signal; `Next` validates the highlighted option's value and, on
success, commits it to the bound value and emits the advance signal —
on failure it records the error and emits nothing.  Any non-key message
leaves the field untouched.  (`s.options[s.selected]` is modelled with
`get?`; the index is in range in every reachable state.) -/
def SelectF.update (s : SelectF T) (msg : GMsg) : SelectF T × List Signal :=
  match msg with
  | .key k =>
    let s := { s with err := none }
    match k with
    | .up => ({ s with selectedIdx := max (s.selectedIdx - 1) 0 }, [])
    | .down =>
        ({ s with selectedIdx := min (s.selectedIdx + 1) ((s.options.length : Int) - 1) }, [])
    | .prev => (s, [Signal.prevField])
    | .next =>
      match s.options.get? s.selectedIdx.toNat with
      | none => (s, [])
      | some opt =>
        match s.validate opt.value with
        | some e => ({ s with err := some e }, [])
        | none => ({ s with value := opt.value }, [Signal.nextField])
  | _ => (s, [])

/-- `Select.Blur()` (field_select.go lines 88-92): drops focus and
re-validates the committed bound value. -/
def SelectF.blur (s : SelectF T) : SelectF T :=
  { s with focused := false, err := s.validate s.value }

/-- `Select.Focus()` (field_select.go lines 82-85). -/
def SelectF.focus (s : SelectF T) : SelectF T :=
  { s with focused := true }

/-- `Select.runAccessible()` (field_select.go lines 181-199): prints the
options, reads `choice` in `[1, len(options)]` via
`accessibility.PromptInt`, and writes `options[choice-1].Value` straight
into the bound value.  The validation callback is never invoked and the
stored error is untouched. -/
def SelectF.runAccessible (s : SelectF T) (choice : Nat)
    (h : choice - 1 < s.options.length) : SelectF T :=
  { s with value := (s.options.get ⟨choice - 1, h⟩).value }

/-- Replace the element at (Go) index `i`; a no-op when `i` is out of
range, matching a Go slice store at a valid index in context. -/
def listModify (f : α → α) (i : Int) : List α → List α
  | [] => []
  | a :: rest => if i = 0 then f a :: rest else a :: listModify f (i - 1) rest

/-- `Group` state (group.go lines 20-45), specialised to groups of
`Select` fields (the group logic never branches on the field variant):
the field list, the paginator page (`g.paginator.Page`, the group
cursor; `TotalPages = len(fields)`) and the group viewport.  Title,
help and theme only affect rendering. -/
structure GroupF (T : Type) where
  fields : List (SelectF T)
  page : Int
  viewport : Viewport

/-- `Group.setCurrent(current)` (group.go lines 191-206): blur the
current field, clamp the new page into `[0, len(fields)-1]`, focus the
new current field. -/
def GroupF.setCurrent (g : GroupF T) (current : Int) : GroupF T :=
  let g1 := { g with fields := listModify SelectF.blur g.page g.fields }
  let newPage := clamp current 0 ((g1.fields.length : Int) - 1)
  { g1 with page := newPage,
            fields := listModify SelectF.focus newPage g1.fields }

/-- `offset` accumulated by the navigation branches of `Group.Update`
(group.go lines 227-231 and 244-248):
`Σ lipgloss.Height(fields[i].View()) + 1` over the first `k` fields. -/
def sumHeights (fs : List (SelectF T)) (k : Nat) : Int :=
  ((fs.take k).map (fun f => f.viewHeight + 1)).sum

/-- `Group.Update(msg)` (group.go lines 209-254).  The message is first
routed to the current field; then:

* on `nextFieldMsg`: `setCurrent(current+1)`; if `current` was already
  the last page, emit `nextGroup` (the blur/focus commands of
  `setCurrent` are discarded by the `break`); otherwise scroll the group
  viewport to `Σ_{i ≤ current} height(fields[i])+1` — the top row of the
  newly focused field;
* on `prevFieldMsg`: `setCurrent(current-1)`; if `current` was `0`, emit
  `prevGroup`; otherwise scroll to `Σ_{i < current-1} height+1` — the
  top row of the newly focused field.

No branch inspects any field's validation error. -/
def GroupF.update (g : GroupF T) (msg : GMsg) : GroupF T × List Signal :=
  match g.fields.get? g.page.toNat with
  | none => (g, [])
  | some f =>
    let fr := f.update msg
    let g := { g with fields := listModify (fun _ => fr.1) g.page g.fields }
    let sigs := fr.2
    match msg with
    | .nextFieldMsg =>
      let current := g.page
      let g2 := g.setCurrent (current + 1)
      if current ≥ (g.fields.length : Int) - 1 then
        (g2, sigs ++ [Signal.nextGroup])
      else
        let offset := sumHeights g2.fields (current.toNat + 1)
        ({ g2 with viewport := g2.viewport.setYOffset offset }, sigs)
    | .prevFieldMsg =>
      let current := g.page
      let g2 := g.setCurrent (current - 1)
      if current = 0 then
        (g2, sigs ++ [Signal.prevGroup])
      else
        let offset := sumHeights g2.fields (current - 1).toNat
        ({ g2 with viewport := g2.viewport.setYOffset offset }, sigs)
    | _ => (g, sigs)

/-- `MultiSelect.Limit(limit)` (field_multiselect.go lines 175-180); the
accompanying `keymap.ToggleAll.SetEnabled(limit == 0)` only toggles a
key-binding display flag. -/
def msLimit (m : MultiSelect T) (l : Int) : MultiSelect T :=
  { m with limit := l }

theorem lookup_ne {l : List (Int × Opt T)} {i j : Int} (h : i ≠ j) (v : Opt T) :
    List.lookup i ((j, v) :: l) = List.lookup i l := by
  have hb : (i == j) = false := beq_eq_false_iff_ne.mpr h
  simp [List.lookup, hb]

theorem toggleSelect_insert (m : MultiSelect T) (i : Int) (o : Opt T)
    (hnone : m.selected.lookup i = none)
    (hlen : ¬ ((m.selected.length : Int) ≥ m.limit)) :
    toggleSelect m i o = ({ m with selected := m.selected ++ [(i, o)] }, none) := by
  unfold toggleSelect
  rw [hnone]
  simp [hlen]

theorem toggleSelect_limited (m : MultiSelect T) (i : Int) (o : Opt T)
    (hnone : m.selected.lookup i = none)
    (hlen : (m.selected.length : Int) ≥ m.limit) :
    toggleSelect m i o = (m, some limitErr) := by
  unfold toggleSelect
  rw [hnone]
  simp [hlen]

/-- C10: a freshly constructed `MultiSelect` has limit `defaultLimit = 2`:
with no `Limit` call, the first two selections of distinct indices
succeed and an attempt to select a third distinct index returns the
limit error, leaving the state unchanged. -/
theorem c10_default_limit_two (T : Type) (id : Nat) (i j k : Int)
    (o1 o2 o3 : Opt T) (hij : i ≠ j) (hki : k ≠ i) (hkj : k ≠ j) :
    (newMultiSelect T id).limit = 2 ∧
    (toggleSelect (newMultiSelect T id) i o1).2 = none ∧
    (toggleSelect (toggleSelect (newMultiSelect T id) i o1).1 j o2).2 = none ∧
    (toggleSelect (toggleSelect (toggleSelect (newMultiSelect T id) i o1).1 j o2).1 k o3)
      = ((toggleSelect (toggleSelect (newMultiSelect T id) i o1).1 j o2).1,
         some limitErr) := by
  have e1 : toggleSelect (newMultiSelect T id) i o1
      = ({ newMultiSelect T id with selected := [(i, o1)] }, none) := by
    apply toggleSelect_insert
    · rfl
    · show ¬ ((0 : Int) ≥ 2)
      decide
  have e2 : toggleSelect ({ newMultiSelect T id with selected := [(i, o1)] }) j o2
      = ({ newMultiSelect T id with selected := [(i, o1), (j, o2)] }, none) := by
    apply toggleSelect_insert
    · show List.lookup j [(i, o1)] = none
      rw [lookup_ne (Ne.symm hij)]
      rfl
    · show ¬ ((1 : Int) ≥ 2)
      decide
  have e3 : toggleSelect
        ({ newMultiSelect T id with selected := [(i, o1), (j, o2)] }) k o3
      = ({ newMultiSelect T id with selected := [(i, o1), (j, o2)] },
         some limitErr) := by
    apply toggleSelect_limited
    · show List.lookup k [(i, o1), (j, o2)] = none
      rw [lookup_ne hki, lookup_ne hkj]
      rfl
    · show ((2 : Int) ≥ 2)
      decide
  rw [e1]
  refine ⟨rfl, rfl, ?_, ?_⟩
  · rw [e2]
  · rw [e2, e3]

/-- C10 witness: the theorem applied at indices 0, 1, 2. -/
theorem c10_default_limit_two_witness :
    (newMultiSelect Nat 0).limit = 2 ∧
    (toggleSelect (newMultiSelect Nat 0) 0 ⟨"A", 10, false⟩).2 = none ∧
    (toggleSelect (toggleSelect (newMultiSelect Nat 0) 0 ⟨"A", 10, false⟩).1 1
        ⟨"B", 20, false⟩).2 = none ∧
    (toggleSelect (toggleSelect (toggleSelect (newMultiSelect Nat 0) 0
          ⟨"A", 10, false⟩).1 1 ⟨"B", 20, false⟩).1 2 ⟨"C", 30, false⟩)
      = ((toggleSelect (toggleSelect (newMultiSelect Nat 0) 0 ⟨"A", 10, false⟩).1 1
          ⟨"B", 20, false⟩).1, some limitErr) :=
  c10_default_limit_two Nat 0 0 1 2 ⟨"A", 10, false⟩ ⟨"B", 20, false⟩
    ⟨"C", 30, false⟩ (by decide) (by decide) (by decide)

/-- C2: with a positive limit `L` and at most `L` entries selected,
`ToggleSelect` keeps the selection size at most `L`; an attempted
selection of an unselected index while the count already equals `L`
returns the limit error and leaves the whole state unchanged; toggling
an already-selected index (a deselection) always returns nil. -/
theorem c2_limit_invariant (m : MultiSelect T) (i : Int) (o : Opt T) (L : Int)
    (hL : m.limit = L) (hpos : 0 < L) (hinv : (m.selected.length : Int) ≤ L) :
    (((toggleSelect m i o).1.selected.length : Int) ≤ L) ∧
    ((m.selected.lookup i).isSome = false → (m.selected.length : Int) = L →
      toggleSelect m i o = (m, some limitErr)) ∧
    ((m.selected.lookup i).isSome = true → (toggleSelect m i o).2 = none) := by
  subst hL
  refine ⟨?_, ?_, ?_⟩
  · unfold toggleSelect
    split
    · calc ((m.selected.filter (fun p => p.1 ≠ i)).length : Int)
          ≤ (m.selected.length : Int) := by
            exact_mod_cast List.length_filter_le _ _
        _ ≤ m.limit := hinv
    · split
      · exact hinv
      · rename_i hsel hlen
        simp only [List.length_append, List.length_cons, List.length_nil]
        push_cast
        omega
  · intro hnone hlen
    unfold toggleSelect
    rw [hnone]
    simp only [Bool.false_eq_true, if_false]
    rw [if_pos (le_of_eq hlen.symm)]
  · intro hsome
    unfold toggleSelect
    rw [hsome]
    simp

/-- Concrete state used by the C2 witness: limit 1 with one entry
already selected. -/
def c2State : MultiSelect Nat :=
  { newMultiSelect Nat 7 with
      limit := 1,
      selected := [(0, ⟨"A", 10, false⟩)] }

/-- C2 witness: the theorem applied at `c2State`. -/
theorem c2_limit_invariant_witness :
    (((toggleSelect c2State 1 ⟨"B", 20, false⟩).1.selected.length : Int) ≤ 1) ∧
    ((c2State.selected.lookup 1).isSome = false →
      (c2State.selected.length : Int) = 1 →
      toggleSelect c2State 1 ⟨"B", 20, false⟩ = (c2State, some limitErr)) ∧
    ((c2State.selected.lookup 1).isSome = true →
      (toggleSelect c2State 1 ⟨"B", 20, false⟩).2 = none) :=
  c2_limit_invariant c2State 1 ⟨"B", 20, false⟩ 1 rfl (by decide)
    (by show ((1 : Int) ≤ 1); decide)

/-- C3 (code bug): `ToggleSelect` tests `len(m.selected) >= m.limit`
with no `m.limit > 0` guard, so with limit 0 — which the rest of the
code treats as "unbounded" (`Limit` enables the ToggleAll binding
exactly when `limit == 0`) — every attempt to select an unselected
index fails with the limit error even when nothing is selected yet:
selection is impossible rather than unbounded. -/
theorem c3_limit_zero_blocks_selection :
    (msLimit (newMultiSelect Nat 0) 0).selected = [] ∧
    toggleSelect (msLimit (newMultiSelect Nat 0) 0) 0 ⟨"A", 10, false⟩
      = (msLimit (newMultiSelect Nat 0) 0, some limitErr) := by
  constructor
  · rfl
  · unfold toggleSelect
    simp [msLimit, newMultiSelect, List.lookup]

/-- C7: a deferred options result carrying a bindings hash different
from the one currently recorded for the field (a stale result,
superseded by a newer request) is discarded: the entire field state —
in particular its options, filtered options and bound value — is left
unchanged. -/
theorem c7_stale_options_result_discarded (e : List Int)
    (msg : UpdateOptionsMsg T) (m : MultiSelect T)
    (h : msg.hash ≠ m.optionsBindingsHash) :
    handleUpdateOptionsMsg e msg m = m := by
  unfold handleUpdateOptionsMsg
  rw [if_neg]
  intro hc
  exact h hc.2

/-- C7 witness: a result for hash 5 delivered while hash 0 is recorded
leaves the state unchanged. -/
theorem c7_stale_options_result_discarded_witness :
    (5 : Nat) ≠ (newMultiSelect Nat 1).optionsBindingsHash ∧
    handleUpdateOptionsMsg [] ⟨1, [⟨"X", 99, false⟩], 5⟩ (newMultiSelect Nat 1)
      = newMultiSelect Nat 1 :=
  ⟨by decide,
   c7_stale_options_result_discarded [] ⟨1, [⟨"X", 99, false⟩], 5⟩
     (newMultiSelect Nat 1) (by decide)⟩

theorem filterMap_lookup_values (l : List (Int × Opt T))
    (hnd : (l.map Prod.fst).Nodup) :
    (l.map Prod.fst).filterMap
        (fun i => (l.lookup i).map (fun o => o.value))
      = l.map (fun p => p.2.value) := by
  induction l with
  | nil => rfl
  | cons p rest ih =>
    obtain ⟨k, o⟩ := p
    simp only [List.map_cons, List.nodup_cons] at hnd ⊢
    rw [List.filterMap_cons]
    have hk : List.lookup k ((k, o) :: rest) = some o := by
      simp [List.lookup]
    rw [hk]
    have hrest : (rest.map Prod.fst).filterMap
          (fun i => (List.lookup i ((k, o) :: rest)).map (fun q => q.value))
        = (rest.map Prod.fst).filterMap
          (fun i => (List.lookup i rest).map (fun q => q.value)) := by
      apply List.filterMap_congr
      intro i hi
      rw [lookup_ne]
      intro hik
      exact hnd.1 (hik ▸ hi)
    rw [hrest, ih hnd.2]
    rfl

/-- The bound value computed by `updateValue` under an enumeration `e`
of the selection's keys is a permutation of the selected options'
values listed in the map's own storage order. -/
theorem updateValue_value_perm (m : MultiSelect T) (e : List Int)
    (hnd : (m.selected.map Prod.fst).Nodup)
    (he : e.Perm (m.selected.map Prod.fst)) :
    (updateValue e m).value.Perm (m.selected.map (fun p => p.2.value)) := by
  show (e.filterMap
      (fun i => (m.selected.lookup i).map (fun o => o.value))).Perm _
  have h := filterMap_lookup_values m.selected hnd
  exact h ▸ he.filterMap _

/-- C5 amended: `updateValue` (the commit of `MultiSelect`) sets the
bound value to the selected options' underlying values in the Go map's
unspecified iteration order — a permutation of the increasing-index
order, not that order itself — sets the error to the validation of the
committed list, and leaves the selection untouched; hence a second
commit (with whatever enumeration the runtime then produces) yields a
bound value that is a permutation of the first one, and equal errors
whenever the validation callback is insensitive to the order of its
argument. -/
theorem c5_commit_perm_invariant (m : MultiSelect T) (e1 e2 : List Int)
    (hnd : (m.selected.map Prod.fst).Nodup)
    (h1 : e1.Perm (m.selected.map Prod.fst))
    (h2 : e2.Perm (m.selected.map Prod.fst)) :
    (updateValue e1 m).selected = m.selected ∧
    (updateValue e1 m).value.Perm (m.selected.map (fun p => p.2.value)) ∧
    (updateValue e1 m).err = m.validate (updateValue e1 m).value ∧
    (updateValue e2 (updateValue e1 m)).value.Perm (updateValue e1 m).value ∧
    ((∀ v1 v2 : List T, v1.Perm v2 → m.validate v1 = m.validate v2) →
      (updateValue e2 (updateValue e1 m)).err = (updateValue e1 m).err) := by
  have hsel : (updateValue e1 m).selected = m.selected := rfl
  have hval : (updateValue e1 m).validate = m.validate := rfl
  have p1 : (updateValue e1 m).value.Perm (m.selected.map (fun p => p.2.value)) :=
    updateValue_value_perm m e1 hnd h1
  have p2 : (updateValue e2 (updateValue e1 m)).value.Perm
      (m.selected.map (fun p => p.2.value)) := by
    have := updateValue_value_perm (updateValue e1 m) e2
      (by rw [hsel]; exact hnd) (by rw [hsel]; exact h2)
    rw [hsel] at this
    exact this
  refine ⟨hsel, p1, rfl, p2.trans p1.symm, fun hperm => ?_⟩
  show (updateValue e1 m).validate (updateValue e2 (updateValue e1 m)).value
      = m.validate (updateValue e1 m).value
  rw [hval]
  exact hperm _ _ (p2.trans p1.symm)

/-- Concrete state for C5: two entries selected at filtered indices 0
and 1 (reachable by `ToggleSelect(0)` then `ToggleSelect(1)`). -/
def c5State : MultiSelect Nat :=
  { newMultiSelect Nat 3 with
      optionsVal := [⟨"A", 10, false⟩, ⟨"B", 20, false⟩],
      filteredOptions := [⟨"A", 10, false⟩, ⟨"B", 20, false⟩],
      selected := [(0, ⟨"A", 10, false⟩), (1, ⟨"B", 20, false⟩)] }

/-- C5 counterexample: `[1, 0]` is a legal enumeration of the selected
map's keys (Go map iteration order is unspecified), and under it the
committed bound value is `[20, 10]`, not the increasing-filtered-index
order `[10, 20]` the claim requires; a second commit under the
enumeration `[0, 1]` then yields a differently ordered bound value,
refuting the same-element-order idempotence part as well. -/
theorem c5_commit_order_not_increasing :
    ([1, 0] : List Int).Perm (c5State.selected.map Prod.fst) ∧
    c5State.selected.map (fun p => p.2.value) = [10, 20] ∧
    (updateValue [1, 0] c5State).value = [20, 10] ∧
    (updateValue [1, 0] c5State).value
      ≠ c5State.selected.map (fun p => p.2.value) ∧
    ([0, 1] : List Int).Perm ((updateValue [1, 0] c5State).selected.map Prod.fst) ∧
    (updateValue [0, 1] (updateValue [1, 0] c5State)).value
      ≠ (updateValue [1, 0] c5State).value := by
  refine ⟨by decide, rfl, rfl, by decide, by decide, by decide⟩

/-- C5 witness: the amended theorem applied at `c5State` with the
enumerations `[1, 0]` and `[0, 1]`. -/
theorem c5_commit_perm_invariant_witness :
    (updateValue [1, 0] c5State).selected = c5State.selected ∧
    (updateValue [1, 0] c5State).value.Perm
      (c5State.selected.map (fun p => p.2.value)) ∧
    (updateValue [1, 0] c5State).err
      = c5State.validate (updateValue [1, 0] c5State).value ∧
    (updateValue [0, 1] (updateValue [1, 0] c5State)).value.Perm
      (updateValue [1, 0] c5State).value ∧
    ((∀ v1 v2 : List Nat, v1.Perm v2 → c5State.validate v1 = c5State.validate v2) →
      (updateValue [0, 1] (updateValue [1, 0] c5State)).err
        = (updateValue [1, 0] c5State).err) :=
  c5_commit_perm_invariant c5State [1, 0] [0, 1] (by decide) (by decide) (by decide)

/-- C6 amended: cursor visibility is an inductive invariant of
`moveCursor` in the unfiltered situation.  Hypotheses: positive viewport
height, the viewport's recorded content line count equals the number of
filtered options (as `optionsView` produces when no filter hides any
option), at least a full window of filtered options, a well-formed
viewport offset (`0 ≤ yOffset ≤ maxYOffset`), a cursor in option range,
and cursor visibility before the call; then every direction preserves
cursor visibility. -/
theorem c6_moveCursor_preserves_visibility (m : MultiSelect T) (d : Dir)
    (hh : 1 ≤ m.viewport.height)
    (hlc : m.viewport.lineCount = (m.filteredOptions.length : Int))
    (hn : m.viewport.height ≤ (m.filteredOptions.length : Int))
    (hy0 : 0 ≤ m.viewport.yOffset)
    (hymax : m.viewport.yOffset ≤ m.viewport.lineCount - m.viewport.height)
    (hc1 : m.viewport.yOffset ≤ m.cursor)
    (hc2 : m.cursor < m.viewport.yOffset + m.viewport.height)
    (hcn : m.cursor < (m.filteredOptions.length : Int)) :
    (moveCursor m d).viewport.yOffset ≤ (moveCursor m d).cursor ∧
    (moveCursor m d).cursor
      < (moveCursor m d).viewport.yOffset + (moveCursor m d).viewport.height := by
  cases d <;>
    simp only [moveCursor, Viewport.gotoTop, Viewport.gotoBottom,
      Viewport.setYOffset, Viewport.lineDown, Viewport.halfViewUp,
      Viewport.halfViewDown, Viewport.maxYOffset] <;>
    (try split_ifs) <;> simp_all <;> omega

/-- Ten options of which only the first four match the filter text
`"x"` (case-insensitive substring match of `filterFunc`). -/
def c6Opts : List (Opt Nat) :=
  [⟨"ax", 0, false⟩, ⟨"bx", 1, false⟩, ⟨"cx", 2, false⟩, ⟨"dx", 3, false⟩,
   ⟨"e", 4, false⟩, ⟨"f", 5, false⟩, ⟨"g", 6, false⟩, ⟨"h", 7, false⟩,
   ⟨"i", 8, false⟩, ⟨"j", 9, false⟩]

/-- A filtered `MultiSelect` after a render: filter `"x"` narrowed the
ten options to four, the viewport shows four rows, and the last `View()`
recorded ten content lines (`optionsView` always emits
`len(options.val)` lines, padding past the filtered ones). -/
def c6State : MultiSelect Nat :=
  { newMultiSelect Nat 4 with
      optionsVal := c6Opts,
      filteredOptions := c6Opts.take 4,
      filtering := false,
      filterStr := "x",
      cursor := 0,
      viewport := { yOffset := 0, height := 4, lineCount := 10 } }

/-- C6 counterexample: `len(filteredOptions) ≥ viewport.height` holds
(4 ≥ 4) and the viewport's line count is exactly what `View()` records
for this state, yet `moveCursor(bottom)` puts the cursor at filtered
index 3 while `GotoBottom` scrolls the offset to
`lineCount - height = 6`: the cursor ends up above the window,
violating `offset ≤ cursor`. -/
theorem c6_cursor_visibility_fails_when_filtered :
    c6State.viewport.height ≤ (c6State.filteredOptions.length : Int) ∧
    c6State.viewport.lineCount = optionsViewLineCount c6State ∧
    (moveCursor c6State .bottom).cursor = 3 ∧
    (moveCursor c6State .bottom).viewport.yOffset = 6 ∧
    ¬ ((moveCursor c6State .bottom).viewport.yOffset
        ≤ (moveCursor c6State .bottom).cursor) := by
  refine ⟨by decide, by decide, by decide, by decide, by decide⟩

/-- Unfiltered state used by the C6 witness: all ten options shown,
cursor on the last row of the window. -/
def c6WState : MultiSelect Nat :=
  { newMultiSelect Nat 5 with
      optionsVal := c6Opts,
      filteredOptions := c6Opts,
      cursor := 9,
      viewport := { yOffset := 6, height := 4, lineCount := 10 } }

/-- C6 witness: the amended theorem applied at `c6WState` with a
half-page-up move. -/
theorem c6_moveCursor_preserves_visibility_witness :
    (1 : Int) ≤ c6WState.viewport.height ∧
    ((moveCursor c6WState .halfUp).viewport.yOffset
        ≤ (moveCursor c6WState .halfUp).cursor ∧
      (moveCursor c6WState .halfUp).cursor
        < (moveCursor c6WState .halfUp).viewport.yOffset
            + (moveCursor c6WState .halfUp).viewport.height) :=
  ⟨by decide,
   c6_moveCursor_preserves_visibility c6WState .halfUp (by decide) (by decide)
     (by decide) (by decide) (by decide) (by decide) (by decide) (by decide)⟩

/-- Unbounded (limit 0) `MultiSelect` with two options, none selected:
the configuration in which the ToggleAll key binding is enabled. -/
def c4State : MultiSelect Nat :=
  { newMultiSelect Nat 6 with
      limit := 0,
      optionsVal := [⟨"A", 10, false⟩, ⟨"B", 20, false⟩],
      filteredOptions := [⟨"A", 10, false⟩, ⟨"B", 20, false⟩] }

/-- C4 (code bug): with limit 0 and every filtered option unselected,
the ToggleAll branch flips the `selected` flag of every option and every
filtered option to true — but it never touches the `m.selected` map,
which is both what `optionsView` renders as selected and the sole source
of the committed bound value; the trailing `updateValue` therefore
commits the empty list.  Nothing becomes "a member of the selection from
which the committed value is computed".  (The enumeration `[]` passed to
the inner `updateValue` is the only one possible for the empty
selection map.) -/
theorem c4_toggleAll_leaves_selection_empty :
    c4State.limit = 0 ∧
    c4State.selected = [] ∧
    (toggleAllAction [] c4State).filteredOptions.all (fun o => o.selected) = true ∧
    (toggleAllAction [] c4State).optionsVal.all (fun o => o.selected) = true ∧
    (toggleAllAction [] c4State).selected = [] ∧
    (toggleAllAction [] c4State).value = [] := by
  refine ⟨rfl, rfl, by decide, by decide, by decide, by decide⟩

/-- A `Select` whose validation callback rejects every value. -/
def c8Select : SelectF Nat :=
  { value := 0,
    options := [⟨"A", 1, false⟩],
    selectedIdx := 0,
    validate := fun _ => some "rejected",
    err := none,
    focused := true,
    viewHeight := 1 }

/-- A default-configured `MultiSelect` over one option. -/
def c8MS : MultiSelect Nat :=
  { newMultiSelect Nat 8 with
      optionsVal := [⟨"A", 10, false⟩],
      filteredOptions := [⟨"A", 10, false⟩] }

/-- C8 (code bug): accessible mode does not match interactive mode.
`Select.runAccessible` commits the chosen option's value without ever
invoking the validation callback (here one that rejects everything),
while the interactive Next key refuses to commit and records the error;
and `MultiSelect.runAccessible` — after the in-loop commit already wrote
the selected values — appends every selected option's value to the bound
value again in its epilogue, committing each selected value twice
(`[10, 10]`) where the interactive commit produces it once (`[10]`). -/
theorem c8_accessible_diverges :
    (c8Select.runAccessible 1 Nat.zero_lt_one).value = 1 ∧
    (c8Select.runAccessible 1 Nat.zero_lt_one).err = none ∧
    c8Select.validate 1 = some "rejected" ∧
    (c8Select.update (.key .next)).1.value = 0 ∧
    (c8Select.update (.key .next)).1.err = some "rejected" ∧
    (c8Select.update (.key .next)).2 = [] ∧
    (runAccessibleLoop (fun sel => sel.map Prod.fst) c8MS [1, 0]).map
        (fun mm => mm.value) = some [10, 10] ∧
    (updateValue
        ((toggleSelect c8MS 0 ⟨"A", 10, false⟩).1.selected.map Prod.fst)
        (toggleSelect c8MS 0 ⟨"A", 10, false⟩).1).value = [10] := by
  refine ⟨rfl, rfl, rfl, rfl, rfl, rfl, by decide, by decide⟩

/-- A focused `Select` whose validation always passes. -/
def c1PassField : SelectF String :=
  { value := "",
    options := [⟨"A", "A", false⟩],
    selectedIdx := 0,
    validate := fun _ => none,
    err := none,
    focused := true,
    viewHeight := 2 }

/-- A blurred `Select` holding a validation error: its callback rejects
the empty committed value (the state `Blur` leaves after the user
retreats off the field without a valid commit). -/
def c1ErrField : SelectF String :=
  { value := "",
    options := [⟨"B", "B", false⟩],
    selectedIdx := 0,
    validate := fun v => if v = "" then some "required" else none,
    err := some "required",
    focused := false,
    viewHeight := 2 }

/-- Two-field group whose non-current field carries a non-nil error. -/
def c1Group : GroupF String :=
  { fields := [c1PassField, c1ErrField], page := 0,
    viewport := { yOffset := 0, height := 6, lineCount := 9 } }

/-- One-field group whose only (current) field carries a non-nil error. -/
def c1GroupLast : GroupF String :=
  { fields := [c1ErrField], page := 0,
    viewport := { yOffset := 0, height := 3, lineCount := 3 } }

/-- C1 counterexample: the group performs no validation gating on the
Advance message.  In `c1Group` a widget holds a non-nil error, yet
dispatching `nextFieldMsg` moves the group cursor from 0 to 1; in
`c1GroupLast` the current (and only) widget holds a non-nil error, yet
dispatching `nextFieldMsg` emits the next-group signal to the form. -/
theorem c1_group_advances_despite_error :
    (c1Group.fields.any (fun f => f.err.isSome)) = true ∧
    c1Group.page = 0 ∧
    (GroupF.update c1Group .nextFieldMsg).1.page = 1 ∧
    (c1GroupLast.fields.any (fun f => f.err.isSome)) = true ∧
    Signal.nextGroup ∈ (GroupF.update c1GroupLast .nextFieldMsg).2 := by
  refine ⟨by decide, rfl, by decide, by decide, by decide⟩

theorem listModify_get (f : α → α) (l : List α) (i : Int) (hi : 0 ≤ i) :
    (listModify f i l).get? i.toNat = (l.get? i.toNat).map f := by
  induction l generalizing i with
  | nil => simp [listModify]
  | cons a t ih =>
    by_cases h0 : i = 0
    · subst h0
      simp [listModify]
    · rw [listModify, if_neg h0]
      have hsucc : i.toNat = (i - 1).toNat + 1 := by omega
      rw [hsucc]
      simp only [List.get?_cons_succ]
      exact ih (i - 1) (by omega)

/-- C1 amended: validation gating happens inside the field, not in the
group.  When the Next key is dispatched to a group whose current field's
highlighted option fails its validation callback, the field records the
error and emits no advance signal, so the group's cursor stays put and
no signal — in particular no next-group signal — reaches the form.
(Errors held by other fields of the group do not gate Advance, and the
group itself moves its cursor or forwards next-group on a received
Advance message unconditionally.) -/
theorem c1_field_gates_advance (g : GroupF T) (f : SelectF T) (opt : Opt T)
    (e : String)
    (hp : 0 ≤ g.page)
    (hf : g.fields.get? g.page.toNat = some f)
    (hopt : f.options.get? f.selectedIdx.toNat = some opt)
    (hval : f.validate opt.value = some e) :
    (GroupF.update g (.key .next)).1.page = g.page ∧
    (GroupF.update g (.key .next)).2 = [] ∧
    (GroupF.update g (.key .next)).1.fields.get? g.page.toNat
      = some { f with err := some e } := by
  have hup : f.update (.key .next) = ({ f with err := some e }, []) := by
    unfold SelectF.update
    dsimp only
    rw [hopt]
    dsimp only
    rw [hval]
  unfold GroupF.update
  rw [hf]
  dsimp only
  rw [hup]
  dsimp only
  refine ⟨rfl, rfl, ?_⟩
  rw [listModify_get _ _ _ hp, hf]
  rfl

/-- Concrete field for the C1 witness: its highlighted option `1` is
rejected by the validation callback. -/
def c1WField : SelectF Nat :=
  { value := 0,
    options := [⟨"A", 1, false⟩],
    selectedIdx := 0,
    validate := fun v => if v = 1 then some "bad" else none,
    err := none,
    focused := true,
    viewHeight := 1 }

/-- Concrete group for the C1 witness. -/
def c1WGroup : GroupF Nat :=
  { fields := [c1WField, c1WField], page := 0,
    viewport := { yOffset := 0, height := 4, lineCount := 5 } }

/-- C1 witness: the amended theorem applied at `c1WGroup`. -/
theorem c1_field_gates_advance_witness :
    (GroupF.update c1WGroup (.key .next)).1.page = c1WGroup.page ∧
    (GroupF.update c1WGroup (.key .next)).2 = [] ∧
    (GroupF.update c1WGroup (.key .next)).1.fields.get? c1WGroup.page.toNat
      = some { c1WField with err := some "bad" } :=
  c1_field_gates_advance c1WGroup c1WField ⟨"A", 1, false⟩ "bad" (by decide)
    rfl rfl (by decide)

theorem listModify_length (f : α → α) (i : Int) (l : List α) :
    (listModify f i l).length = l.length := by
  induction l generalizing i with
  | nil => rfl
  | cons a t ih =>
    rw [listModify]
    by_cases h0 : i = 0
    · rw [if_pos h0]
      rfl
    · rw [if_neg h0]
      simp [ih]

theorem listModify_const_self (l : List α) (i : Int) (a : α) (hi : 0 ≤ i)
    (h : l.get? i.toNat = some a) : listModify (fun _ => a) i l = l := by
  induction l generalizing i with
  | nil => rfl
  | cons b t ih =>
    rw [listModify]
    by_cases h0 : i = 0
    · subst h0
      simp only [Int.toNat_zero, List.get?_cons_zero, Option.some.injEq] at h
      rw [if_pos rfl, h]
    · rw [if_neg h0]
      have hsucc : i.toNat = (i - 1).toNat + 1 := by omega
      rw [hsucc, List.get?_cons_succ] at h
      rw [ih (i - 1) (by omega) h]

theorem sumHeights_cons (a : SelectF T) (t : List (SelectF T)) (k : Nat) :
    sumHeights (a :: t) (k + 1) = (a.viewHeight + 1) + sumHeights t k := by
  simp [sumHeights, add_comm]

theorem sumHeights_listModify (f : SelectF T → SelectF T)
    (hf : ∀ s, (f s).viewHeight = s.viewHeight) (l : List (SelectF T))
    (i : Int) (k : Nat) :
    sumHeights (listModify f i l) k = sumHeights l k := by
  induction l generalizing i k with
  | nil => rfl
  | cons a t ih =>
    cases k with
    | zero => rfl
    | succ k2 =>
      rw [listModify]
      by_cases h0 : i = 0
      · rw [if_pos h0, sumHeights_cons, sumHeights_cons, hf]
      · rw [if_neg h0, sumHeights_cons, sumHeights_cons, ih]

/-- C9 amended: whenever Advance or Retreat moves focus between widgets
inside the group (not at a group boundary), the group's new scroll
offset is the sum of the rendered heights (plus one separator line each)
of the fields preceding the newly focused one — i.e. the top row of the
newly focused widget's block, field `page+1` on Advance and field
`page-1` on Retreat — clamped into the viewport's valid offset range,
regardless of the previous offset; hence, whenever that row offset is
itself a valid offset, the top of the newly focused widget sits exactly
at the viewport's visible top edge (and its bottom row is inside the
window exactly when its height is at most the viewport height).  The
offset is not the minimal change: it is recomputed even when the newly
focused widget was already fully visible. -/
theorem c9_offset_tops_new_field (g : GroupF T)
    (hp0 : 0 ≤ g.page) (hpl : g.page < (g.fields.length : Int)) :
    (g.page < (g.fields.length : Int) - 1 →
      (GroupF.update g .nextFieldMsg).1.page = g.page + 1 ∧
      (GroupF.update g .nextFieldMsg).2 = [] ∧
      (GroupF.update g .nextFieldMsg).1.viewport.yOffset
        = max 0 (min (max 0 (g.viewport.lineCount - g.viewport.height))
            (sumHeights g.fields (g.page.toNat + 1))) ∧
      (0 ≤ sumHeights g.fields (g.page.toNat + 1) →
        sumHeights g.fields (g.page.toNat + 1)
            ≤ g.viewport.lineCount - g.viewport.height →
        (GroupF.update g .nextFieldMsg).1.viewport.yOffset
          = sumHeights g.fields (g.page.toNat + 1))) ∧
    (1 ≤ g.page →
      (GroupF.update g .prevFieldMsg).1.page = g.page - 1 ∧
      (GroupF.update g .prevFieldMsg).2 = [] ∧
      (GroupF.update g .prevFieldMsg).1.viewport.yOffset
        = max 0 (min (max 0 (g.viewport.lineCount - g.viewport.height))
            (sumHeights g.fields (g.page - 1).toNat)) ∧
      (0 ≤ sumHeights g.fields (g.page - 1).toNat →
        sumHeights g.fields (g.page - 1).toNat
            ≤ g.viewport.lineCount - g.viewport.height →
        (GroupF.update g .prevFieldMsg).1.viewport.yOffset
          = sumHeights g.fields (g.page - 1).toNat)) := by
  have hlt : g.page.toNat < g.fields.length := by omega
  have hf : g.fields.get? g.page.toNat
      = some (g.fields.get ⟨g.page.toNat, hlt⟩) := List.get?_eq_get hlt
  have hlen1 : ((listModify SelectF.blur g.page g.fields).length : Int)
      = (g.fields.length : Int) := by rw [listModify_length]
  constructor
  · intro hadv
    unfold GroupF.update
    rw [hf]
    dsimp only [SelectF.update]
    rw [listModify_const_self g.fields g.page _ hp0 hf]
    dsimp only [GroupF.setCurrent]
    have hcond : ¬ (g.page ≥ (g.fields.length : Int) - 1) := by omega
    rw [if_neg hcond]
    have hclamp : clamp (g.page + 1) 0
        (((listModify SelectF.blur g.page g.fields).length : Int) - 1)
        = g.page + 1 := by
      rw [hlen1]
      unfold clamp
      rw [if_neg (by omega), if_neg (by omega)]
    rw [hclamp]
    have hsum : sumHeights
        (listModify SelectF.focus (g.page + 1)
          (listModify SelectF.blur g.page g.fields)) (g.page.toNat + 1)
        = sumHeights g.fields (g.page.toNat + 1) := by
      rw [sumHeights_listModify SelectF.focus (fun _ => rfl),
          sumHeights_listModify SelectF.blur (fun _ => rfl)]
    rw [hsum]
    refine ⟨rfl, rfl, rfl, fun h1 h2 => ?_⟩
    show (g.viewport.setYOffset (sumHeights g.fields (g.page.toNat + 1))).yOffset
        = sumHeights g.fields (g.page.toNat + 1)
    unfold Viewport.setYOffset Viewport.maxYOffset
    dsimp only
    omega
  · intro hret
    unfold GroupF.update
    rw [hf]
    dsimp only [SelectF.update]
    rw [listModify_const_self g.fields g.page _ hp0 hf]
    dsimp only [GroupF.setCurrent]
    have hcond : ¬ (g.page = 0) := by omega
    rw [if_neg hcond]
    have hclamp : clamp (g.page - 1) 0
        (((listModify SelectF.blur g.page g.fields).length : Int) - 1)
        = g.page - 1 := by
      rw [hlen1]
      unfold clamp
      rw [if_neg (by omega), if_neg (by omega)]
    rw [hclamp]
    have hsum : sumHeights
        (listModify SelectF.focus (g.page - 1)
          (listModify SelectF.blur g.page g.fields)) (g.page - 1).toNat
        = sumHeights g.fields (g.page - 1).toNat := by
      rw [sumHeights_listModify SelectF.focus (fun _ => rfl),
          sumHeights_listModify SelectF.blur (fun _ => rfl)]
    rw [hsum]
    refine ⟨rfl, rfl, rfl, fun h1 h2 => ?_⟩
    show (g.viewport.setYOffset (sumHeights g.fields (g.page - 1).toNat)).yOffset
        = sumHeights g.fields (g.page - 1).toNat
    unfold Viewport.setYOffset Viewport.maxYOffset
    dsimp only
    omega

/-- A blurred two-line `Select` field with no error. -/
def c9Field : SelectF Nat :=
  { value := 0,
    options := [⟨"A", 0, false⟩],
    selectedIdx := 0,
    validate := fun _ => none,
    err := none,
    focused := false,
    viewHeight := 2 }

/-- Three two-line fields in a viewport of height 6 showing lines 0-5 of
the 9-line rendered content (as `NewGroup(...).WithHeight(7)` and a
render produce): every field is fully visible at offset 0. -/
def c9Group : GroupF Nat :=
  { fields := [c9Field, c9Field, c9Field], page := 0,
    viewport := { yOffset := 0, height := 6, lineCount := 9 } }

/-- C9 counterexample: advancing from field 0 to field 1 recomputes the
offset to 3 — the top row of field 1's block (rows 3-4) — even though
that block was already fully visible at the previous offset 0, where the
minimal offset change satisfying the visibility requirement is 0.  The
"offset is unchanged when the newly focused widget is already fully
visible" part of the claim is false. -/
theorem c9_offset_changes_though_visible :
    c9Group.viewport.yOffset = 0 ∧
    (GroupF.update c9Group .nextFieldMsg).1.page = 1 ∧
    sumHeights c9Group.fields 1 = 3 ∧
    c9Group.viewport.yOffset ≤ 3 ∧
    3 + 2 - 1 < c9Group.viewport.yOffset + c9Group.viewport.height ∧
    (GroupF.update c9Group .nextFieldMsg).1.viewport.yOffset = 3 := by
  refine ⟨rfl, by decide, by decide, by decide, by decide, by decide⟩

/-- The group of `c9Group`'s three fields with focus on the middle
field, so that both an interior Advance and an interior Retreat are
possible. -/
def c9WGroup : GroupF Nat :=
  { fields := [c9Field, c9Field, c9Field], page := 1,
    viewport := { yOffset := 0, height := 6, lineCount := 9 } }

/-- C9 witness: the amended theorem applied at `c9WGroup`, where both
the interior-Advance and the interior-Retreat antecedents hold. -/
theorem c9_offset_tops_new_field_witness :
    ((c9WGroup.page < (c9WGroup.fields.length : Int) - 1 →
      (GroupF.update c9WGroup .nextFieldMsg).1.page = c9WGroup.page + 1 ∧
      (GroupF.update c9WGroup .nextFieldMsg).2 = [] ∧
      (GroupF.update c9WGroup .nextFieldMsg).1.viewport.yOffset
        = max 0 (min (max 0 (c9WGroup.viewport.lineCount - c9WGroup.viewport.height))
            (sumHeights c9WGroup.fields (c9WGroup.page.toNat + 1))) ∧
      (0 ≤ sumHeights c9WGroup.fields (c9WGroup.page.toNat + 1) →
        sumHeights c9WGroup.fields (c9WGroup.page.toNat + 1)
            ≤ c9WGroup.viewport.lineCount - c9WGroup.viewport.height →
        (GroupF.update c9WGroup .nextFieldMsg).1.viewport.yOffset
          = sumHeights c9WGroup.fields (c9WGroup.page.toNat + 1))) ∧
    (1 ≤ c9WGroup.page →
      (GroupF.update c9WGroup .prevFieldMsg).1.page = c9WGroup.page - 1 ∧
      (GroupF.update c9WGroup .prevFieldMsg).2 = [] ∧
      (GroupF.update c9WGroup .prevFieldMsg).1.viewport.yOffset
        = max 0 (min (max 0 (c9WGroup.viewport.lineCount - c9WGroup.viewport.height))
            (sumHeights c9WGroup.fields (c9WGroup.page - 1).toNat)) ∧
      (0 ≤ sumHeights c9WGroup.fields (c9WGroup.page - 1).toNat →
        sumHeights c9WGroup.fields (c9WGroup.page - 1).toNat
            ≤ c9WGroup.viewport.lineCount - c9WGroup.viewport.height →
        (GroupF.update c9WGroup .prevFieldMsg).1.viewport.yOffset
          = sumHeights c9WGroup.fields (c9WGroup.page - 1).toNat))) :=
  c9_offset_tops_new_field c9WGroup (by decide) (by decide)

end Huh
